import Mathlib

/-
Shallow embedding of the Thai bank transfer slip reader (src/app.py).

The embedding follows the source line by line:
  - `extract_amount_and_date` (app.py lines 64-117): the pattern variables
    `amount_patterns` and `date_patterns` are plain strings in the source
    (the alternative patterns are commented out), so the `for pattern in
    amount_patterns` loops iterate over the CHARACTERS of those strings and
    call `re.search` on each single-character pattern.  The first character
    of both strings is a lone backslash, which is an invalid regular
    expression, so `re.search` raises `re.error` on the very first
    iteration, for every input text.  Python exceptions are modelled by
    `Except PyError`.
  - `preprocess_image` (lines 34-61): PIL grayscale conversion, OpenCV
    Otsu binarization (`cv2.threshold` with `THRESH_BINARY + THRESH_OTSU`),
    and a 3x3 median blur with replicated borders.  Images are lists of
    pixel rows; the decode step (`Image.open`) is modelled by a `decode`
    parameter so that undecodable inputs give `PyError.decodeError`.
  - the Flask routes `upload_file` (lines 120-153) and `view_expenses`
    (lines 155-164) become explicit state-passing functions over an
    `AppState` holding the upload folder and the CSV ledger; an uncaught
    exception is an `Except.error` carrying the state at the raise point,
    so that side effects performed before the raise are kept.
-/

/-- Python exceptions that the embedded code can raise: the `re.error`
variants raised when compiling an invalid pattern, the `IndexError` raised
by `match.group(1)` on a pattern with no groups, the `StopIteration`
raised by `next(reader)` on an exhausted reader, and the
`UnidentifiedImageError` raised by `Image.open` on undecodable bytes. -/
inductive PyError where
  | reBadEscape
  | reUnterminatedSet
  | reNothingToRepeat
  | indexError
  | stopIteration
  | decodeError
deriving DecidableEq

/-- Model of `re.search(pattern, text, re.IGNORECASE)` for a
single-character pattern, which is the only kind the source ever passes
(the loops in `extract_amount_and_date` iterate over the characters of the
pattern strings).  A lone backslash is a bad escape; a lone opening
bracket is an unterminated character set; lone `+`, `*`, `?` have nothing
to repeat; `.` matches the first character that is not a newline; every
other character occurring in the pattern strings is matched literally,
case-insensitively.  The result is the matched character, if any. -/
def reSearchChar (c : Char) (text : String) : Except PyError (Option Char) :=
  if c = '\\' then .error .reBadEscape
  else if c = '[' then .error .reUnterminatedSet
  else if c = '+' ∨ c = '*' ∨ c = '?' then .error .reNothingToRepeat
  else if c = '.' then .ok (text.toList.find? (fun ch => ch ≠ '\n'))
  else .ok (text.toList.find? (fun ch => c.toLower = ch.toLower))

/-- Line 77 of app.py: `amount_patterns` is the raw STRING
`\d{3}[.]{1}\d{2}` (not a list; the list entries are commented out). -/
def amount_patterns : String := "\\d\x7b3\x7d[.]\x7b1\x7d\\d\x7b2\x7d"

/-- Line 92 of app.py: `date_patterns` is the raw STRING
`\d{1,2}[\s\u0E00-\u0E7F\]+.{1}+[\u0E00-\u0E7F]+\.?\s+\d{4}`; in a raw
Python string the `\u....` sequences are six literal characters each. -/
def date_patterns : String :=
  "\\d\x7b1,2\x7d[\\s\\u0E00-\\u0E7F\\]+.\x7b1\x7d+[\\u0E00-\\u0E7F]+\\.?\\s+\\d\x7b4\x7d"

/-- Lines 82-87 of app.py: `for pattern in amount_patterns` iterates over
the characters of the string.  On a match the source evaluates
`match.group(1)`, which raises `IndexError` because a single-character
pattern has no capture group, so the `float(... .replace(...))`
conversion on the same line is unreachable and does not appear here. -/
def amountLoop (text : String) : List Char → Except PyError (Option ℚ)
  | [] => .ok none
  | c :: rest =>
    match reSearchChar c text with
    | .error e => .error e
    | .ok (some _) => .error .indexError
    | .ok none => amountLoop text rest

/-- Lines 98-115 of app.py: `for pattern in date_patterns` iterates over
the characters of the string.  On a match the source evaluates
`match.group(1)`, which raises `IndexError` for the same reason as in the
amount loop, so the `datetime.strptime` fallback chain is unreachable and
does not appear here. -/
def dateLoop (text : String) : List Char → Except PyError (Option String)
  | [] => .ok none
  | c :: rest =>
    match reSearchChar c text with
    | .error e => .error e
    | .ok (some _) => .error .indexError
    | .ok none => dateLoop text rest

/-- Lines 64-117 of app.py: `extract_amount_and_date(text)`.  `amount` and
`date` start as `None`; the two loops run in order and any raised
exception propagates to the caller. -/
def extract_amount_and_date (text : String) :
    Except PyError (Option ℚ × Option String) :=
  match amountLoop text amount_patterns.toList with
  | .error e => .error e
  | .ok amount =>
    match dateLoop text date_patterns.toList with
    | .error e => .error e
    | .ok date => .ok (amount, date)

/-- An 8-bit RGB pixel as decoded by PIL. -/
structure RGB where
  r : Nat
  g : Nat
  b : Nat
deriving DecidableEq

/-- PIL `ImageOps.grayscale` on an RGB pixel: the ITU-R 601-2 transform
L = (R * 19595 + G * 38470 + B * 7471) >> 16 used by Pillow. -/
def toGrayPixel (p : RGB) : Nat :=
  (p.r * 19595 + p.g * 38470 + p.b * 7471) / 65536

/-- Line 43 of app.py: `ImageOps.grayscale(img)` applied pixelwise. -/
def grayscale (img : List (List RGB)) : List (List Nat) :=
  img.map (fun row => row.map toGrayPixel)

/-- Width of an image stored as a list of rows: the length of the first
row (decoded images are rectangular). -/
def imgWidth {α : Type} (img : List (List α)) : Nat := (img.headD []).length

/-- Number of pixels with gray value `v` (the OpenCV histogram entry). -/
def grayHist (img : List (List Nat)) (v : Nat) : Nat :=
  (img.map (fun row => (row.filter (fun p => p = v)).length)).sum

/-- Total number of pixels. -/
def pixelCount (img : List (List Nat)) : Nat := (img.map List.length).sum

/-- One iteration of the threshold search in the OpenCV routine
`getThreshVal_Otsu_8u` (called by `cv2.threshold` with `THRESH_OTSU`).
The accumulator is (q1, mu1, max_sigma, max_val).  The double arithmetic
of the original is modelled exactly in ℚ, and the FLT_EPSILON guards
become exact sign tests. -/
def otsuStep (scale mu : ℚ) (hist : Nat → Nat) (a : ℚ × ℚ × ℚ × Nat)
    (i : Nat) : ℚ × ℚ × ℚ × Nat :=
  let p_i : ℚ := (hist i : ℚ) * scale
  let mu1w : ℚ := a.2.1 * a.1
  let q1 : ℚ := a.1 + p_i
  let q2 : ℚ := 1 - q1
  if q1 ≤ 0 ∨ q2 ≤ 0 then (q1, mu1w, a.2.2.1, a.2.2.2)
  else
    let mu1 : ℚ := (mu1w + (i : ℚ) * p_i) / q1
    let mu2 : ℚ := (mu - q1 * mu1) / q2
    let sigma : ℚ := q1 * q2 * (mu1 - mu2) * (mu1 - mu2)
    if a.2.2.1 < sigma then (q1, mu1, sigma, i) else (q1, mu1, a.2.2.1, a.2.2.2)

/-- The Otsu threshold: scan candidate thresholds 0..255 and keep the one
maximizing the between-class variance, exactly as `getThreshVal_Otsu_8u`
does (first maximum wins, since later candidates must be strictly
larger). -/
def otsuThreshold (img : List (List Nat)) : Nat :=
  let scale : ℚ := 1 / (pixelCount img : ℚ)
  let mu : ℚ := scale * ((((List.range 256).map (fun i => i * grayHist img i)).sum : ℕ) : ℚ)
  ((List.range 256).foldl (otsuStep scale mu (grayHist img)) (0, 0, 0, 0)).2.2.2

/-- Line 50 of app.py: `cv2.threshold(cv_img, 0, 255, cv2.THRESH_BINARY +
cv2.THRESH_OTSU)`.  With `THRESH_BINARY` the destination pixel is 255 when
the source pixel is strictly above the computed threshold and 0
otherwise. -/
def thresholdOtsu (img : List (List Nat)) : List (List Nat) :=
  let t := otsuThreshold img
  img.map (fun row => row.map (fun p => if t < p then 255 else 0))

/-- Pixel access with the out-of-range default 0 (never hit at the
replicated indices used below for pixels of a nonempty rectangular
image). -/
def pixAt (img : List (List Nat)) (i j : Nat) : Nat := (img.getD i []).getD j 0

/-- The 3x3 neighborhood of pixel (i, j) with replicated borders
(`cv2.medianBlur` uses BORDER_REPLICATE): row indices i-1, i, i+1 and
column indices j-1, j, j+1, clamped to the image. -/
def nbhd (img : List (List Nat)) (h w i j : Nat) : List Nat :=
  ([i - 1, i, min (i + 1) (h - 1)].map (fun a =>
    [j - 1, j, min (j + 1) (w - 1)].map (fun b => pixAt img a b))).flatten

/-- Median of a 9-element neighborhood: the middle element of the sorted
list, as computed by the sorting network in `cv2.medianBlur`. -/
def median9 (l : List Nat) : Nat :=
  (l.insertionSort (fun a b => a ≤ b)).getD (l.length / 2) 0

/-- Line 53 of app.py: `cv2.medianBlur(thresholded_img, 3)`. -/
def medianBlur3 (img : List (List Nat)) : List (List Nat) :=
  (List.range img.length).map (fun i =>
    (List.range (imgWidth img)).map (fun j =>
      median9 (nbhd img img.length (imgWidth img) i j)))

/-- Lines 34-61 of app.py, after the `Image.open` decode step: grayscale
conversion, then Otsu binarization, then the 3x3 median blur, in that
order.  Total function: the image operations never raise. -/
def preprocess_image (img : List (List RGB)) : List (List Nat) :=
  medianBlur3 (thresholdOtsu (grayscale img))

/-- The `Image.open` call on line 40 together with the rest of
`preprocess_image`: `Image.open` raises `UnidentifiedImageError` when the
stored bytes are not a decodable image, modelled by a `decode` parameter
returning `none`. -/
def preprocess_pipeline (decode : List Nat → Option (List (List RGB)))
    (bytes : List Nat) : Except PyError (List (List Nat)) :=
  match decode bytes with
  | none => .error .decodeError
  | some img => .ok (preprocess_image img)

/-- HTTP method of a request to the `/` route. -/
inductive Method where
  | GET
  | POST
deriving DecidableEq

/-- A request to the `/` route: whether `request.files` has a `file`
part, the uploaded filename and bytes, and `request.url`. -/
structure UploadRequest where
  method : Method
  hasFilePart : Bool
  filename : String
  content : List Nat
  url : String
deriving DecidableEq

/-- The mutable state of the application: the files saved in
`UPLOAD_FOLDER` (keyed by filename) and the contents of the CSV ledger
`expenses.csv` as a list of rows (`none` when the file does not exist). -/
structure AppState where
  uploads : List (String × List Nat)
  ledger : Option (List (List String))
deriving DecidableEq

/-- The responses the `/` route can produce: the redirect to
`request.url`, the rendered `result.html`, and the rendered
`upload.html`. -/
inductive Response where
  | redirect (url : String)
  | resultPage (filename : String) (amount : Option ℚ) (date : Option String)
      (text : String)
  | uploadPage
deriving DecidableEq

/-- Line 131 of app.py: `file.save(filepath)` stores the bytes under the
filename, overwriting a previously saved file of the same name. -/
def saveFile (ups : List (String × List Nat)) (nm : String)
    (content : List Nat) : List (String × List Nat) :=
  ups.filter (fun p => p.1 ≠ nm) ++ [(nm, content)]

/-- How `csv.writer` renders the amount field: Python `None` becomes an
empty field, a number is written in decimal (unreachable in this program
because `extract_amount_and_date` always raises). -/
def amountCell : Option ℚ → String
  | none => ""
  | some q => toString q

/-- How `csv.writer` renders the date field: `None` becomes an empty
field, a string is written as is. -/
def dateCell : Option String → String
  | none => ""
  | some s => s

/-- Lines 144-146 of app.py: opening `expenses.csv` in append mode
creates the file when it is missing (without a header) and appends the
row at the end. -/
def appendLedger (ledger : Option (List (List String))) (row : List String) :
    List (List String) :=
  ledger.getD [] ++ [row]

/-- Lines 120-153 of app.py: the `/` route.  On GET it renders
`upload.html`.  On POST it redirects when `request.files` has no `file`
part or the filename is empty; otherwise (`if file:` is then true, since
a FileStorage with a nonempty filename is truthy) it saves the file,
decodes and preprocesses it, runs OCR (`ocr` models
`pytesseract.image_to_string`), extracts the fields, appends the row to
the ledger and renders `result.html`.  An uncaught exception propagates
as `Except.error` carrying the state at the raise point. -/
def upload_file (decode : List Nat → Option (List (List RGB)))
    (ocr : List (List Nat) → String) (s : AppState) (req : UploadRequest) :
    Except (PyError × AppState) (AppState × Response) :=
  match req.method with
  | .GET => .ok (s, .uploadPage)
  | .POST =>
    if req.hasFilePart = false then .ok (s, .redirect req.url)
    else if req.filename = "" then .ok (s, .redirect req.url)
    else
      let s1 : AppState := ⟨saveFile s.uploads req.filename req.content, s.ledger⟩
      match preprocess_pipeline decode req.content with
      | .error e => .error (e, s1)
      | .ok processed =>
        let text := ocr processed
        match extract_amount_and_date text with
        | .error e => .error (e, s1)
        | .ok (amount, date) =>
          let row := [req.filename, amountCell amount, dateCell date, text.trim]
          .ok (⟨s1.uploads, some (appendLedger s1.ledger row)⟩,
            .resultPage req.filename amount date text.trim)

/-- Lines 155-164 of app.py: the `/expenses` route.  When the ledger file
does not exist the row list stays empty; otherwise `next(reader)` skips
the header row, raising `StopIteration` when the file is empty, and the
remaining rows are collected in order.  The file is only read. -/
def view_expenses (s : AppState) :
    Except (PyError × AppState) (AppState × List (List String)) :=
  match s.ledger with
  | none => .ok (s, [])
  | some [] => .error (.stopIteration, s)
  | some (_ :: rows) => .ok (s, rows)

/-- A list lookup with default is either a member of the list or the
default value. -/
lemma getD_mem_or_default {α : Type} :
    ∀ (l : List α) (j : Nat) (d : α), l.getD j d ∈ l ∨ l.getD j d = d := by
  intro l
  induction l with
  | nil =>
    intro j d
    right
    cases j <;> rfl
  | cons a t ih =>
    intro j d
    cases j with
    | zero =>
      left
      simp [List.getD]
    | succ k =>
      have hstep : (a :: t).getD (k + 1) d = t.getD k d := by
        simp [List.getD]
      rcases ih k d with h | h
      · left
        rw [hstep]
        exact List.mem_cons_of_mem _ h
      · right
        rw [hstep, h]

/-- Mapping a function over every row does not change the image width. -/
lemma imgWidth_map_map {α β : Type} (f : α → β) (img : List (List α)) :
    imgWidth (img.map (fun row => row.map f)) = imgWidth img := by
  cases img <;> simp [imgWidth]

/-- Otsu binarization does not change the image width. -/
lemma imgWidth_thresholdOtsu (img : List (List Nat)) :
    imgWidth (thresholdOtsu img) = imgWidth img := by
  simpa [thresholdOtsu] using
    imgWidth_map_map (fun p => if otsuThreshold img < p then 255 else 0) img

/-- Grayscale conversion does not change the image width. -/
lemma imgWidth_grayscale (img : List (List RGB)) :
    imgWidth (grayscale img) = imgWidth img := imgWidth_map_map toGrayPixel img

/-- Every pixel in a row of an Otsu-binarized image is 0 or 255. -/
lemma mem_thresholdOtsu_binary (img : List (List Nat)) (row : List Nat)
    (hrow : row ∈ thresholdOtsu img) : ∀ p ∈ row, p = 0 ∨ p = 255 := by
  simp only [thresholdOtsu, List.mem_map] at hrow
  obtain ⟨r0, _, rfl⟩ := hrow
  intro p hp
  simp only [List.mem_map] at hp
  obtain ⟨q, _, rfl⟩ := hp
  by_cases h : otsuThreshold img < q <;> simp [h]

/-- Any pixel lookup into an Otsu-binarized image yields 0 or 255 (the
out-of-range default is 0). -/
lemma pixAt_thresholdOtsu (img : List (List Nat)) (a b : Nat) :
    pixAt (thresholdOtsu img) a b = 0 ∨ pixAt (thresholdOtsu img) a b = 255 := by
  unfold pixAt
  rcases getD_mem_or_default ((thresholdOtsu img).getD a []) b 0 with hp | hp
  · rcases getD_mem_or_default (thresholdOtsu img) a [] with hr | hr
    · exact mem_thresholdOtsu_binary img _ hr _ hp
    · rw [hr] at hp
      cases hp
  · left
    exact hp

/-- Every value in a 3x3 neighborhood of an Otsu-binarized image is 0 or
255. -/
lemma nbhd_thresholdOtsu_binary (img : List (List Nat)) (h w i j : Nat) :
    ∀ x ∈ nbhd (thresholdOtsu img) h w i j, x = 0 ∨ x = 255 := by
  intro x hx
  simp only [nbhd, List.mem_flatten, List.mem_map] at hx
  obtain ⟨l, ⟨a, _, rfl⟩, hxl⟩ := hx
  simp only [List.mem_map] at hxl
  obtain ⟨b, _, rfl⟩ := hxl
  exact pixAt_thresholdOtsu img a b

/-- The median of a list of pixels that are all 0 or 255 is 0 or 255. -/
lemma median9_binary (l : List Nat) (h : ∀ x ∈ l, x = 0 ∨ x = 255) :
    median9 l = 0 ∨ median9 l = 255 := by
  unfold median9
  rcases getD_mem_or_default (l.insertionSort (fun a b => a ≤ b))
      (l.length / 2) 0 with hm | hm
  · exact h _ ((List.perm_insertionSort _ l).mem_iff.mp hm)
  · left
    exact hm

/-- C1: the spec states that extraction always produces a result and
never raises, degrading to absent fields, including on the empty string.
The code contradicts this and its own docstring: `amount_patterns` is a
string, the loop iterates over its characters, and the first character, a
lone backslash, is an invalid pattern, so `re.search` raises `re.error`
for every input text. -/
theorem extract_always_raises (text : String) :
    extract_amount_and_date text = Except.error PyError.reBadEscape := rfl

/-- C2: the spec states that a text containing a three-digit, point,
two-digit substring yields that substring parsed as the amount; instead
the code raises `re.error` before any amount can be produced (and even
under the intended single-pattern reading, `match.group(1)` would raise
`IndexError`, as the pattern has no capture group). -/
theorem extract_raises_on_matching_amount :
    extract_amount_and_date "Amount: 123.45 THB" =
      Except.error PyError.reBadEscape := rfl

/-- C3: the spec states that a text with no three-digit, point, two-digit
substring yields an absent amount; instead the code raises `re.error`
already in the first loop iteration. -/
theorem extract_raises_without_amount :
    extract_amount_and_date "no amount here" =
      Except.error PyError.reBadEscape := rfl

/-- C4: the spec states that a text containing a Thai-month date such as
`15 มี.ค. 2567` yields the matched substring verbatim as the date;
instead the code raises `re.error` in the amount loop before date
extraction is ever reached. -/
theorem extract_raises_on_thai_date :
    extract_amount_and_date "15 มี.ค. 2567" =
      Except.error PyError.reBadEscape := rfl

/-- C5: the spec states that a text whose only date-like content is a
Gregorian slash date such as `15/03/2024` yields an absent date; instead
the code raises `re.error` in the amount loop before date extraction is
ever reached. -/
theorem extract_raises_on_slash_date :
    extract_amount_and_date "15/03/2024" =
      Except.error PyError.reBadEscape := rfl

/-- C6: on a rectangular decoded image, `preprocess_image` applies
grayscale conversion, then Otsu binarization, then the 3x3 median filter,
in that order, never raises (it is a total function), and its output has
the height of the input, rows of the input width (single-channel by
construction: one natural number per pixel), with every output pixel
either 0 or 255. -/
theorem preprocess_image_spec (img : List (List RGB))
    (hrect : ∀ row ∈ img, row.length = imgWidth img) :
    preprocess_image img = medianBlur3 (thresholdOtsu (grayscale img)) ∧
    (preprocess_image img).length = img.length ∧
    (∀ row ∈ preprocess_image img, row.length = imgWidth img) ∧
    (∀ row ∈ preprocess_image img, ∀ p ∈ row, p = 0 ∨ p = 255) := by
  refine ⟨rfl, ?_, ?_, ?_⟩
  · simp [preprocess_image, medianBlur3, thresholdOtsu, grayscale]
  · intro row hrow
    simp only [preprocess_image, medianBlur3, List.mem_map] at hrow
    obtain ⟨i, _, rfl⟩ := hrow
    simp [imgWidth_thresholdOtsu, imgWidth_grayscale]
  · intro row hrow p hp
    simp only [preprocess_image, medianBlur3, List.mem_map] at hrow
    obtain ⟨i, _, rfl⟩ := hrow
    simp only [List.mem_map] at hp
    obtain ⟨j, _, rfl⟩ := hp
    exact median9_binary _ (nbhd_thresholdOtsu_binary _ _ _ _ _)

/-- C6 witness: the preprocessing contract instantiated on a concrete
one-pixel image. -/
theorem preprocess_image_spec_witness :
    (∀ row ∈ [[RGB.mk 10 20 30]], row.length = imgWidth [[RGB.mk 10 20 30]]) ∧
    (preprocess_image [[RGB.mk 10 20 30]] =
        medianBlur3 (thresholdOtsu (grayscale [[RGB.mk 10 20 30]])) ∧
      (preprocess_image [[RGB.mk 10 20 30]]).length =
        ([[RGB.mk 10 20 30]] : List (List RGB)).length ∧
      (∀ row ∈ preprocess_image [[RGB.mk 10 20 30]],
        row.length = imgWidth [[RGB.mk 10 20 30]]) ∧
      (∀ row ∈ preprocess_image [[RGB.mk 10 20 30]],
        ∀ p ∈ row, p = 0 ∨ p = 255)) :=
  ⟨by decide, preprocess_image_spec _ (by decide)⟩

/-- C7: a POST with a file part and a nonempty filename whose bytes do
not decode as an image fails with the decode error propagated to the
caller, carrying a state whose ledger is unchanged: no row is appended
and no normalized output or result page is produced (the file itself was
already saved before the decode attempt). -/
theorem upload_file_decode_error (decode : List Nat → Option (List (List RGB)))
    (ocr : List (List Nat) → String) (s : AppState) (req : UploadRequest)
    (hm : req.method = Method.POST) (hf : req.hasFilePart = true)
    (hn : req.filename ≠ "") (hd : decode req.content = none) :
    upload_file decode ocr s req =
      Except.error (PyError.decodeError,
        ⟨saveFile s.uploads req.filename req.content, s.ledger⟩) ∧
    (⟨saveFile s.uploads req.filename req.content, s.ledger⟩ : AppState).ledger
      = s.ledger := by
  constructor
  · simp [upload_file, preprocess_pipeline, hm, hf, hn, hd]
  · rfl

/-- C7 witness: the decode-failure contract instantiated on a concrete
request, state, and decoder that rejects everything. -/
theorem upload_file_decode_error_witness :
    ((⟨Method.POST, true, "slip.png", [7], "/"⟩ : UploadRequest).filename ≠ "" ∧
      (fun (_ : List Nat) => (none : Option (List (List RGB))))
        (⟨Method.POST, true, "slip.png", [7], "/"⟩ : UploadRequest).content = none) ∧
    (upload_file (fun _ => none) (fun _ => "")
        (⟨[], some [["Filename", "Amount", "Date", "Extracted_Text"]]⟩ : AppState)
        (⟨Method.POST, true, "slip.png", [7], "/"⟩ : UploadRequest) =
      Except.error (PyError.decodeError,
        ⟨saveFile [] "slip.png" [7],
          some [["Filename", "Amount", "Date", "Extracted_Text"]]⟩) ∧
    (⟨saveFile [] "slip.png" [7],
        some [["Filename", "Amount", "Date", "Extracted_Text"]]⟩ : AppState).ledger
      = (⟨[], some [["Filename", "Amount", "Date", "Extracted_Text"]]⟩ : AppState).ledger) :=
  ⟨⟨by decide, rfl⟩,
    upload_file_decode_error (fun _ => none) (fun _ => "") _ _ rfl rfl (by decide) rfl⟩

/-- C8: `extract_amount_and_date` is embedded as a pure function of its
text argument alone, reading and writing no state, so two runs on the
same text yield the same outcome definitionally. -/
theorem extract_amount_and_date_deterministic (text : String) :
    extract_amount_and_date text = extract_amount_and_date text := rfl

/-- C9: a POST whose files contain no `file` part or whose file has an
empty filename is answered by a redirect with the state returned
unchanged: nothing is saved, the pipeline does not run, and the ledger is
untouched. -/
theorem upload_file_no_file_redirects
    (decode : List Nat → Option (List (List RGB)))
    (ocr : List (List Nat) → String) (s : AppState) (req : UploadRequest)
    (hm : req.method = Method.POST)
    (h : req.hasFilePart = false ∨ req.filename = "") :
    upload_file decode ocr s req = Except.ok (s, Response.redirect req.url) := by
  rcases h with h | h
  · simp [upload_file, hm, h]
  · by_cases hf : req.hasFilePart = false <;> simp [upload_file, hm, h, hf]

/-- C9 witness: the no-file redirect contract instantiated on a concrete
request with no file part. -/
theorem upload_file_no_file_redirects_witness :
    ((⟨Method.POST, false, "slip.png", [7], "/up"⟩ : UploadRequest).method = Method.POST ∧
      ((⟨Method.POST, false, "slip.png", [7], "/up"⟩ : UploadRequest).hasFilePart = false ∨
        (⟨Method.POST, false, "slip.png", [7], "/up"⟩ : UploadRequest).filename = "")) ∧
    upload_file (fun _ => none) (fun _ => "")
        (⟨[("old.png", [1])], some []⟩ : AppState)
        (⟨Method.POST, false, "slip.png", [7], "/up"⟩ : UploadRequest) =
      Except.ok ((⟨[("old.png", [1])], some []⟩ : AppState),
        Response.redirect (⟨Method.POST, false, "slip.png", [7], "/up"⟩ : UploadRequest).url) :=
  ⟨⟨rfl, Or.inl rfl⟩,
    upload_file_no_file_redirects (fun _ => none) (fun _ => "") _ _ rfl (Or.inl rfl)⟩

/-- C10 counterexample: on a ledger file that exists but is completely
empty, `next(reader)` raises `StopIteration` instead of returning the
list of post-header rows, so the claim fails as stated for that file
state. -/
theorem view_expenses_empty_file_raises :
    view_expenses ⟨[], some []⟩ =
      Except.error (PyError.stopIteration, (⟨[], some []⟩ : AppState)) := rfl

/-- C10 (amended): whenever the ledger file is not an existing empty
file, `view_expenses` returns exactly the rows after the first (header)
row in file order without modifying the state, and a missing file yields
the empty list. -/
theorem view_expenses_spec (s : AppState) (h : s.ledger ≠ some []) :
    view_expenses s = Except.ok (s, (s.ledger.getD []).tail) := by
  match hs : s.ledger with
  | none => simp [view_expenses, hs]
  | some [] => exact absurd hs h
  | some (hd :: rows) => simp [view_expenses, hs]

/-- C10 witness: the amended ledger-reading contract instantiated on a
concrete two-row ledger. -/
theorem view_expenses_spec_witness :
    ((⟨[], some [["Filename", "Amount", "Date", "Extracted_Text"],
        ["a.png", "", "", "text"]]⟩ : AppState).ledger ≠ some []) ∧
    view_expenses (⟨[], some [["Filename", "Amount", "Date", "Extracted_Text"],
        ["a.png", "", "", "text"]]⟩ : AppState) =
      Except.ok ((⟨[], some [["Filename", "Amount", "Date", "Extracted_Text"],
          ["a.png", "", "", "text"]]⟩ : AppState),
        (((⟨[], some [["Filename", "Amount", "Date", "Extracted_Text"],
          ["a.png", "", "", "text"]]⟩ : AppState).ledger.getD []).tail)) :=
  ⟨by decide, view_expenses_spec _ (by decide)⟩
